import Mathlib

/-
Verification of the ComboBox controller
(src/components/Autocomplete/components/ComboBox/ComboBox.tsx).

The component's state is embedded shallowly:

  * JavaScript objects (option descriptors / action descriptors) live in a
    heap `Nat → EntryData`; a `Nat` is an object reference, so JavaScript
    reference identity (`===`, `Array.prototype.includes` on objects) is
    equality of references.  Mutating a field of a shared object is a point
    update of the heap.
  * The React `useState` cells of the component
    (`selectedOption`, `selectedIndex`, `navigableOptions`,
    `popoverActive` from `useToggle`, `popoverWasActive`) are the fields of
    `ComboState`.
  * Callbacks (`onSelect`) are modelled by returning the argument the code
    would pass to them.
-/

/-- The fields of an option/action descriptor that the ComboBox logic reads
or writes.  `value` is `none` for an action descriptor (actions have no
`value` field), `idStr` is the positional id assigned by `assignOptionIds`,
and `active` is the transient highlight flag. -/
structure EntryData where
  value : Option String
  idStr : Option String
  active : Bool
  deriving DecidableEq, Repr

/-- The ComboBox component state: the object heap plus the `useState` /
`useToggle` cells of the function component. -/
structure ComboState where
  heap : Nat → EntryData
  navigableOptions : List Nat
  selectedOption : Option Nat
  selectedIndex : Int
  popoverActive : Bool
  popoverWasActive : Bool

/-- Point update of the object heap. -/
def updHeap (h : Nat → EntryData) (r : Nat) (d : EntryData) : Nat → EntryData :=
  fun n => if n = r then d else h n

/-- `obj.active = b` on the object stored at reference `r`. -/
def setActiveFlag (h : Nat → EntryData) (r : Nat) (b : Bool) : Nat → EntryData :=
  updHeap h r { h r with active := b }

/-- JavaScript array indexing `arr[i]`: `undefined` (here `none`) for a
negative or out-of-range index. -/
def jsGet (l : List Nat) (i : Int) : Option Nat :=
  if 0 ≤ i then l.get? i.toNat else none

/-- `Array.prototype.includes` (SameValueZero, which on our element types is
plain equality). -/
def jsIncludes [DecidableEq α] : List α → α → Bool
  | [], _ => false
  | a :: as, v => if a = v then true else jsIncludes as v

/-- `Array.prototype.indexOf`: first index holding `v`, `-1` when absent. -/
def jsIndexOf [DecidableEq α] : List α → α → Int
  | [], _ => -1
  | a :: as, v =>
    if a = v then 0
    else
      let r := jsIndexOf as v
      if r = -1 then -1 else r + 1

/-- `arr.splice(i, 1)`: removes one element at `i` (a negative `i` counts
from the end, clamped at `0`, exactly as `splice` does). -/
def jsSpliceRemoveOne (l : List α) (i : Int) : List α :=
  l.eraseIdx (if i < 0 then ((l.length : Int) + i).toNat else i.toNat)

/-- `useToggle(false).setTrue` for the popover flag. -/
def forcePopoverActiveTrue (s : ComboState) : ComboState :=
  { s with popoverActive := true }

/-- `useToggle(false).setFalse` for the popover flag. -/
def forcePopoverActiveFalse (s : ComboState) : ComboState :=
  { s with popoverActive := false }

/-- `setPopoverWasActive b`. -/
def setPopoverWasActive (s : ComboState) (b : Bool) : ComboState :=
  { s with popoverWasActive := b }

/-- `visuallyUpdateSelectedOption(newOption, oldOption)`: clears `active` on
the old highlighted object (when defined), then sets it on the new one
(when defined).  Pure heap effect. -/
def visuallyUpdateSelectedOption (h : Nat → EntryData)
    (newOption oldOption : Option Nat) : Nat → EntryData :=
  let h1 := match oldOption with
    | some o => setActiveFlag h o false
    | none => h
  match newOption with
  | some n => setActiveFlag h1 n true
  | none => h1

/-- `navigableOptions.forEach((option) => {option.active = false})`. -/
def clearActiveAll (h : Nat → EntryData) (refs : List Nat) : Nat → EntryData :=
  refs.foldl (fun a r => setActiveFlag a r false) h

/-- `resetVisuallySelectedOptions`: clears the cursor and the `active` flag
of every navigable entry. -/
def resetVisuallySelectedOptions (s : ComboState) : ComboState :=
  { s with
    selectedOption := none
    selectedIndex := -1
    heap := clearActiveAll s.heap s.navigableOptions }

/-- `selectOptionAtIndex(newOptionIndex)`: no-op on an empty list; otherwise
reads `navigableOptions[newOptionIndex]` (possibly `undefined`), moves the
`active` flag, and stores the new cursor. -/
def selectOptionAtIndex (s : ComboState) (newOptionIndex : Int) : ComboState :=
  if s.navigableOptions.length = 0 then s
  else
    let newSelectedOption := jsGet s.navigableOptions newOptionIndex
    { s with
      heap := visuallyUpdateSelectedOption s.heap newSelectedOption s.selectedOption
      selectedOption := newSelectedOption
      selectedIndex := newOptionIndex }

/-- `selectNextOption`: wraps to `0` when stepping past the end. -/
def selectNextOption (s : ComboState) : ComboState :=
  if s.navigableOptions.length = 0 then s
  else
    let newIndex : Int :=
      if s.selectedIndex + 1 ≥ (s.navigableOptions.length : Int) then 0
      else s.selectedIndex + 1
    selectOptionAtIndex s newIndex

/-- `selectPreviousOption`: wraps to `length - 1` from any index `≤ 0`. -/
def selectPreviousOption (s : ComboState) : ComboState :=
  if s.navigableOptions.length = 0 then s
  else
    let newIndex : Int :=
      if s.selectedIndex ≤ 0 then (s.navigableOptions.length : Int) - 1
      else s.selectedIndex - 1
    selectOptionAtIndex s newIndex

/-- `selectOptions(selected)`: fires `onSelect(selected)` (an array is always
truthy, so the callback always fires; the second component of the result is
its argument) and, in single-select mode, resets the visual selection and
closes the popover. -/
def selectOptions (s : ComboState) (allowMultiple : Bool) (sel : List String) :
    ComboState × List String :=
  if allowMultiple then (s, sel)
  else
    (setPopoverWasActive
      (forcePopoverActiveFalse (resetVisuallySelectedOptions s)) false, sel)

/-- Result of `handleSelection`: the component state, the contents of the
array object the caller passed as `selected` after the call (the code
aliases it as `newlySelectedOptions` and splices/pushes into it), and the
argument handed to `onSelect` via `selectOptions`. -/
structure SelectionResult where
  state : ComboState
  callerArray : List String
  emitted : List String

/-- `handleSelection(newSelected)`: toggle-off via `splice` when present,
`push` when multi-select, rebind to `[newSelected]` otherwise; then
`selectOptions(newlySelectedOptions)`. -/
def handleSelection (s : ComboState) (selected : List String)
    (newSelected : String) (allowMultiple : Bool) : SelectionResult :=
  let arrays :=
    if jsIncludes selected newSelected then
      let spliced := jsSpliceRemoveOne selected (jsIndexOf selected newSelected)
      (spliced, spliced)
    else if allowMultiple then
      let pushed := selected ++ [newSelected]
      (pushed, pushed)
    else
      (selected, [newSelected])
  let out := selectOptions s allowMultiple arrays.2
  ⟨out.1, arrays.1, out.2⟩

theorem jsIncludes_iff_mem [DecidableEq α] (l : List α) (v : α) :
    jsIncludes l v = true ↔ v ∈ l := by
  induction l with
  | nil => simp [jsIncludes]
  | cons a as ih =>
    by_cases h : a = v
    · subst h; simp [jsIncludes]
    · simp [jsIncludes, h, ih, Ne.symm h]

theorem jsIndexOf_nonneg_of_mem [DecidableEq α] (l : List α) (v : α)
    (h : v ∈ l) : 0 ≤ jsIndexOf l v := by
  induction l with
  | nil => simp at h
  | cons a as ih =>
    by_cases hav : a = v
    · simp [jsIndexOf, hav]
    · have hmem : v ∈ as := by
        rcases List.mem_cons.mp h with h1 | h1
        · exact absurd h1.symm hav
        · exact h1
      have hr := ih hmem
      have hne : jsIndexOf as v ≠ -1 := by omega
      simp only [jsIndexOf, hav, if_false, hne, ite_false]
      omega

theorem jsSplice_indexOf_eq_erase [DecidableEq α] (l : List α) (v : α)
    (h : v ∈ l) :
    jsSpliceRemoveOne l (jsIndexOf l v) = l.erase v := by
  induction l with
  | nil => simp at h
  | cons a as ih =>
    by_cases hav : a = v
    · subst hav
      simp [jsIndexOf, jsSpliceRemoveOne, List.eraseIdx]
    · have hmem : v ∈ as := by
        rcases List.mem_cons.mp h with h1 | h1
        · exact absurd h1.symm hav
        · exact h1
      have hr := jsIndexOf_nonneg_of_mem as v hmem
      have hne : jsIndexOf as v ≠ -1 := by omega
      have hstep : jsIndexOf (a :: as) v = jsIndexOf as v + 1 := by
        simp only [jsIndexOf, hav, if_false, hne, ite_false]
      have htn : (jsIndexOf as v + 1).toNat = (jsIndexOf as v).toNat + 1 := by
        omega
      have hnlt : ¬ jsIndexOf as v + 1 < 0 := by omega
      have hnlt' : ¬ jsIndexOf as v < 0 := by omega
      have herase : (a :: as).erase v = a :: as.erase v := by
        rw [List.erase_cons]
        simp [hav]
      rw [hstep, herase, jsSpliceRemoveOne, if_neg hnlt, htn, List.eraseIdx]
      have := ih hmem
      rw [jsSpliceRemoveOne, if_neg hnlt'] at this
      rw [this]

theorem selectOptions_emitted (s : ComboState) (m : Bool) (sel : List String) :
    (selectOptions s m sel).2 = sel := by
  cases m <;> simp [selectOptions]

/-- Claim C1: for every current SelectionSet and every committed value,
`handleSelection` emits to the owner's callback: the set with the value
removed (first occurrence) when it was present; the set with the value
appended when absent under multi-select; exactly `[value]` when absent
under single-select. -/
theorem c1_handleSelection_emitted_selection (s : ComboState)
    (selected : List String) (v : String) (allowMultiple : Bool) :
    (handleSelection s selected v allowMultiple).emitted =
      if v ∈ selected then selected.erase v
      else if allowMultiple then selected ++ [v]
      else [v] := by
  by_cases hmem : v ∈ selected
  · have hinc : jsIncludes selected v = true := (jsIncludes_iff_mem _ _).mpr hmem
    simp only [handleSelection, hinc, if_true, if_pos hmem, selectOptions_emitted]
    exact jsSplice_indexOf_eq_erase selected v hmem
  · have hinc : jsIncludes selected v = false := by
      rcases Bool.eq_false_or_eq_true (jsIncludes selected v) with h | h
      · exact absurd ((jsIncludes_iff_mem _ _).mp h) hmem
      · exact h
    cases allowMultiple <;>
      simp [handleSelection, hinc, hmem, selectOptions_emitted]

/-- An inert state used to evaluate the selection path at concrete inputs:
empty heap, no navigable entries, no cursor, closed popover. -/
def s0 : ComboState :=
  { heap := fun _ => ⟨none, none, false⟩
    navigableOptions := []
    selectedOption := none
    selectedIndex := -1
    popoverActive := false
    popoverWasActive := false }

/-- Claim C2: evaluating `handleSelection` at concrete inputs shows the
caller's `selected` array is mutated in place: toggling `"a"` off
`["a"]` leaves the caller's array `[]`, and a multi-select commit of
`"b"` against `["a"]` leaves the caller's array `["a", "b"]` — in both
cases not the `["a"]` the caller passed. -/
theorem c2_handleSelection_mutates_caller_array :
    (handleSelection s0 ["a"] "a" false).callerArray = [] ∧
    (handleSelection s0 ["a"] "b" true).callerArray = ["a", "b"] ∧
    ([] : List String) ≠ ["a"] ∧ ["a", "b"] ≠ ["a"] := by
  refine ⟨?_, ?_, by simp, by simp⟩ <;> rfl

/-- Claim C3: a single-select commit clears the cursor to `(-1, none)` and
closes the panel; a multi-select commit leaves the cursor (index and
entry) and the panel open/closed state exactly as they were. -/
theorem c3_selectOptions_cursor_panel (s : ComboState) (sel : List String) :
    ((selectOptions s false sel).1.selectedIndex = -1 ∧
      (selectOptions s false sel).1.selectedOption = none ∧
      (selectOptions s false sel).1.popoverActive = false) ∧
    ((selectOptions s true sel).1.selectedIndex = s.selectedIndex ∧
      (selectOptions s true sel).1.selectedOption = s.selectedOption ∧
      (selectOptions s true sel).1.popoverActive = s.popoverActive) := by
  refine ⟨⟨?_, ?_, ?_⟩, ?_, ?_, ?_⟩ <;>
    simp [selectOptions, setPopoverWasActive, forcePopoverActiveFalse,
      resetVisuallySelectedOptions]

theorem selectOptionAtIndex_of_ne (s : ComboState) (i : Int)
    (h : s.navigableOptions.length ≠ 0) :
    selectOptionAtIndex s i =
      { s with
        heap := visuallyUpdateSelectedOption s.heap
          (jsGet s.navigableOptions i) s.selectedOption
        selectedOption := jsGet s.navigableOptions i
        selectedIndex := i } := by
  simp [selectOptionAtIndex, h]

theorem selectOptionAtIndex_navigable (s : ComboState) (i : Int) :
    (selectOptionAtIndex s i).navigableOptions = s.navigableOptions := by
  by_cases h : s.navigableOptions.length = 0 <;> simp [selectOptionAtIndex, h]

theorem selectNextOption_navigable (s : ComboState) :
    (selectNextOption s).navigableOptions = s.navigableOptions := by
  by_cases h : s.navigableOptions.length = 0 <;>
    simp [selectNextOption, h, selectOptionAtIndex_navigable]

theorem selectNextOption_selectedIndex (s : ComboState)
    (h : s.navigableOptions.length ≠ 0) :
    (selectNextOption s).selectedIndex =
      if s.selectedIndex + 1 ≥ (s.navigableOptions.length : Int) then 0
      else s.selectedIndex + 1 := by
  simp only [selectNextOption, if_neg h, selectOptionAtIndex_of_ne _ _ h]

theorem selectNextOption_selectedOption (s : ComboState)
    (h : s.navigableOptions.length ≠ 0) :
    (selectNextOption s).selectedOption =
      jsGet s.navigableOptions
        (if s.selectedIndex + 1 ≥ (s.navigableOptions.length : Int) then 0
         else s.selectedIndex + 1) := by
  simp only [selectNextOption, if_neg h, selectOptionAtIndex_of_ne _ _ h]

theorem selectPreviousOption_selectedIndex (s : ComboState)
    (h : s.navigableOptions.length ≠ 0) :
    (selectPreviousOption s).selectedIndex =
      if s.selectedIndex ≤ 0 then (s.navigableOptions.length : Int) - 1
      else s.selectedIndex - 1 := by
  simp only [selectPreviousOption, if_neg h, selectOptionAtIndex_of_ne _ _ h]

theorem selectPreviousOption_selectedOption (s : ComboState)
    (h : s.navigableOptions.length ≠ 0) :
    (selectPreviousOption s).selectedOption =
      jsGet s.navigableOptions
        (if s.selectedIndex ≤ 0 then (s.navigableOptions.length : Int) - 1
         else s.selectedIndex - 1) := by
  simp only [selectPreviousOption, if_neg h, selectOptionAtIndex_of_ne _ _ h]

theorem selectNextOption_heap (s : ComboState)
    (h : s.navigableOptions.length ≠ 0) :
    (selectNextOption s).heap =
      visuallyUpdateSelectedOption s.heap
        (jsGet s.navigableOptions
          (if s.selectedIndex + 1 ≥ (s.navigableOptions.length : Int) then 0
           else s.selectedIndex + 1))
        s.selectedOption := by
  simp only [selectNextOption, if_neg h, selectOptionAtIndex_of_ne _ _ h]

theorem jsGet_eq_some_of_lt (l : List Nat) (j : Int) (h0 : 0 ≤ j)
    (h1 : j < (l.length : Int)) : ∃ r, jsGet l j = some r := by
  rw [jsGet, if_pos h0]
  have hj : j.toNat < l.length := by omega
  exact ⟨l.get ⟨j.toNat, hj⟩, List.get?_eq_get hj⟩

/-- Claim C6: on an empty navigable list both arrow movements are silent
no-ops; on a non-empty list the next movement realises
`(currentIndex + 1) mod length` (with `-1` acting as "before index 0",
so the first call highlights index 0) and marks the object at the new
cursor position `active`, and the previous movement wraps to
`length - 1` from any index `≤ 0` and otherwise decrements. -/
theorem c6_arrow_navigation (s : ComboState) :
    (s.navigableOptions = [] →
      selectNextOption s = s ∧ selectPreviousOption s = s) ∧
    (s.navigableOptions ≠ [] → -1 ≤ s.selectedIndex →
      s.selectedIndex < (s.navigableOptions.length : Int) →
      (selectNextOption s).selectedIndex =
        (s.selectedIndex + 1) % (s.navigableOptions.length : Int) ∧
      (selectNextOption s).selectedOption =
        jsGet s.navigableOptions
          ((s.selectedIndex + 1) % (s.navigableOptions.length : Int)) ∧
      ∃ r, (selectNextOption s).selectedOption = some r ∧
        ((selectNextOption s).heap r).active = true) ∧
    (s.navigableOptions ≠ [] →
      (selectPreviousOption s).selectedIndex =
        if s.selectedIndex ≤ 0 then (s.navigableOptions.length : Int) - 1
        else s.selectedIndex - 1) := by
  refine ⟨?_, ?_, ?_⟩
  · intro h
    constructor <;> simp [selectNextOption, selectPreviousOption, h]
  · intro hne h0 h1
    have hlen : s.navigableOptions.length ≠ 0 := by
      intro hz; exact hne (List.length_eq_zero.mp hz)
    have hidx := selectNextOption_selectedIndex s hlen
    have hopt := selectNextOption_selectedOption s hlen
    have hheap := selectNextOption_heap s hlen
    have hJ : (if s.selectedIndex + 1 ≥ (s.navigableOptions.length : Int) then
          (0 : Int) else s.selectedIndex + 1) =
        (s.selectedIndex + 1) % (s.navigableOptions.length : Int) := by
      by_cases hwrap : s.selectedIndex + 1 ≥ (s.navigableOptions.length : Int)
      · rw [if_pos hwrap]
        have he : s.selectedIndex + 1 = (s.navigableOptions.length : Int) := by
          omega
        rw [he, Int.emod_self]
      · rw [if_neg hwrap]
        exact (Int.emod_eq_of_lt (by omega) (by omega)).symm
    rw [hJ] at hidx hopt hheap
    have hb0 : 0 ≤ (s.selectedIndex + 1) % (s.navigableOptions.length : Int) :=
      Int.emod_nonneg _ (by omega)
    have hb1 : (s.selectedIndex + 1) % (s.navigableOptions.length : Int) <
        (s.navigableOptions.length : Int) :=
      Int.emod_lt_of_pos _ (by omega)
    obtain ⟨r, hr⟩ := jsGet_eq_some_of_lt s.navigableOptions _ hb0 hb1
    refine ⟨hidx, hopt, r, by rw [hopt, hr], ?_⟩
    rw [hheap, hr]
    cases s.selectedOption <;>
      simp [visuallyUpdateSelectedOption, setActiveFlag, updHeap]
  · intro hne
    have hlen : s.navigableOptions.length ≠ 0 := by
      intro hz; exact hne (List.length_eq_zero.mp hz)
    exact selectPreviousOption_selectedIndex s hlen

/-- A small concrete heap: objects 0 and 1 hold option descriptors with
values "A" and "B"; everything else is inert. -/
def demoHeap : Nat → EntryData := fun n =>
  if n = 0 then ⟨some "A", none, false⟩
  else if n = 1 then ⟨some "B", none, false⟩
  else ⟨none, none, false⟩

/-- A concrete state with two navigable entries and the initial cursor. -/
def s1 : ComboState :=
  { heap := demoHeap
    navigableOptions := [0, 1]
    selectedOption := none
    selectedIndex := -1
    popoverActive := false
    popoverWasActive := false }

theorem c6_arrow_navigation_witness :
    s1.navigableOptions ≠ [] ∧ -1 ≤ s1.selectedIndex ∧
    s1.selectedIndex < (s1.navigableOptions.length : Int) ∧
    (selectNextOption s1).selectedIndex = 0 ∧
    (∃ r, (selectNextOption s1).selectedOption = some r ∧
      ((selectNextOption s1).heap r).active = true) := by
  refine ⟨by decide, by decide, by decide, ?_, ?_⟩
  · have h := ((c6_arrow_navigation s1).2.1 (by decide) (by decide)
      (by decide)).1
    rw [h]; decide
  · exact ((c6_arrow_navigation s1).2.1 (by decide) (by decide)
      (by decide)).2.2

/-- Claim C5 is refuted at the initial cursor: on the two-entry list of
`s1`, `selectNextOption` from index `-1` lands on index 0 and
`selectPreviousOption` then lands on index 1 (the last index), not back
on `-1`. -/
theorem c5_counterexample :
    s1.selectedIndex = -1 ∧
    (selectPreviousOption (selectNextOption s1)).selectedIndex = 1 ∧
    (1 : Int) ≠ -1 := by
  refine ⟨rfl, ?_, by decide⟩
  rfl

/-- Claim C5 (amended): the next/previous round trip restores the cursor
for every state whose cursor actually points at an entry
(`0 ≤ index < length` and `entry = list[index]`); from the initial
cursor `-1` over a non-empty list it instead lands on `length - 1`. -/
theorem c5_prev_inverts_next (s : ComboState) :
    (0 ≤ s.selectedIndex →
      s.selectedIndex < (s.navigableOptions.length : Int) →
      s.selectedOption = jsGet s.navigableOptions s.selectedIndex →
      (selectPreviousOption (selectNextOption s)).selectedIndex =
          s.selectedIndex ∧
        (selectPreviousOption (selectNextOption s)).selectedOption =
          s.selectedOption) ∧
    (s.navigableOptions ≠ [] → s.selectedIndex = -1 →
      (selectPreviousOption (selectNextOption s)).selectedIndex =
        (s.navigableOptions.length : Int) - 1) := by
  constructor
  · intro h0 h1 h2
    have hlen : s.navigableOptions.length ≠ 0 := by omega
    have hmn := selectNextOption_navigable s
    have hlen2 : (selectNextOption s).navigableOptions.length ≠ 0 := by
      rw [hmn]; exact hlen
    have hidx := selectNextOption_selectedIndex s hlen
    have hpidx := selectPreviousOption_selectedIndex (selectNextOption s) hlen2
    have hpopt := selectPreviousOption_selectedOption (selectNextOption s) hlen2
    rw [hidx] at hpidx hpopt
    rw [hmn] at hpidx hpopt
    by_cases hwrap : s.selectedIndex + 1 ≥ (s.navigableOptions.length : Int)
    · have he : s.selectedIndex = (s.navigableOptions.length : Int) - 1 := by
        omega
      rw [if_pos hwrap] at hpidx hpopt
      rw [if_pos (by omega : (0:Int) ≤ 0)] at hpidx hpopt
      refine ⟨by rw [hpidx, he], ?_⟩
      rw [hpopt, ← he, h2]
    · rw [if_neg hwrap] at hpidx hpopt
      have hgt : ¬ s.selectedIndex + 1 ≤ 0 := by omega
      rw [if_neg hgt] at hpidx hpopt
      have he : s.selectedIndex + 1 - 1 = s.selectedIndex := by omega
      rw [he] at hpidx hpopt
      exact ⟨hpidx, by rw [hpopt, h2]⟩
  · intro hne hinit
    have hlen : s.navigableOptions.length ≠ 0 := by
      intro hz; exact hne (List.length_eq_zero.mp hz)
    have hmn := selectNextOption_navigable s
    have hlen2 : (selectNextOption s).navigableOptions.length ≠ 0 := by
      rw [hmn]; exact hlen
    have hidx := selectNextOption_selectedIndex s hlen
    have hpidx := selectPreviousOption_selectedIndex (selectNextOption s) hlen2
    rw [hidx] at hpidx
    rw [hmn] at hpidx
    have hL : 0 < (s.navigableOptions.length : Int) := by omega
    rw [hinit] at hpidx
    rw [if_neg (by omega : ¬ (-1:Int) + 1 ≥ (s.navigableOptions.length : Int))]
      at hpidx
    rw [if_pos (by omega : (-1:Int) + 1 ≤ 0)] at hpidx
    exact hpidx

theorem c5_prev_inverts_next_witness :
    (0 : Int) ≤ (selectNextOption s1).selectedIndex ∧
    (selectNextOption s1).selectedIndex <
      ((selectNextOption s1).navigableOptions.length : Int) ∧
    (selectNextOption s1).selectedOption =
      jsGet (selectNextOption s1).navigableOptions
        (selectNextOption s1).selectedIndex ∧
    (selectPreviousOption (selectNextOption (selectNextOption s1))).selectedIndex =
      (selectNextOption s1).selectedIndex := by
  refine ⟨by decide, by decide, by decide, ?_⟩
  exact ((c5_prev_inverts_next (selectNextOption s1)).1 (by decide) (by decide)
    (by decide)).1

/-- `handleFocus`: unconditionally `forcePopoverActiveTrue()` then
`setPopoverWasActive(true)`. -/
def handleFocus (s : ComboState) : ComboState :=
  setPopoverWasActive (forcePopoverActiveTrue s) true

/-- `handlePopoverOpen`: opens (and sets the memory flag) only when the
popover is closed and the navigable list is non-empty. -/
def handlePopoverOpen (s : ComboState) : ComboState :=
  if ¬s.popoverActive ∧ 0 < s.navigableOptions.length then
    setPopoverWasActive (forcePopoverActiveTrue s) true
  else s

/-- Claim C7 is refuted: on a closed panel over an empty navigable list a
focus event opens the panel anyway — `handleFocus` has no guard, while the
claimed `requestOpen` behaviour (`handlePopoverOpen`) would be a no-op
here. -/
theorem c7_counterexample :
    s0.popoverActive = false ∧ s0.navigableOptions = [] ∧
    (handleFocus s0).popoverActive = true ∧
    handlePopoverOpen s0 = s0 := by
  refine ⟨rfl, rfl, rfl, ?_⟩
  simp [handlePopoverOpen, s0]

/-- Claim C7 (amended): the focus handler unconditionally opens the panel
and sets the `popoverWasActive` memory flag, whatever the prior panel
state and list contents; it touches nothing else, and it agrees with the
guarded `handlePopoverOpen` exactly on states that are closed with a
non-empty list. -/
theorem c7_handleFocus_unconditional (s : ComboState) :
    (handleFocus s).popoverActive = true ∧
    (handleFocus s).popoverWasActive = true ∧
    (handleFocus s).navigableOptions = s.navigableOptions ∧
    (handleFocus s).selectedIndex = s.selectedIndex ∧
    (handleFocus s).selectedOption = s.selectedOption ∧
    (handleFocus s).heap = s.heap ∧
    (s.popoverActive = false → 0 < s.navigableOptions.length →
      handleFocus s = handlePopoverOpen s) := by
  refine ⟨rfl, rfl, rfl, rfl, rfl, rfl, ?_⟩
  intro h1 h2
  simp [handleFocus, handlePopoverOpen, h1, h2]

theorem c7_handleFocus_unconditional_witness :
    s1.popoverActive = false ∧ 0 < s1.navigableOptions.length ∧
    handleFocus s1 = handlePopoverOpen s1 := by
  refine ⟨rfl, by decide, ?_⟩
  exact (c7_handleFocus_unconditional s1).2.2.2.2.2.2 rfl (by decide)

/-- The popover-visibility effect (the `useEffect` over
`navigableOptions` / `contentBefore` / `contentAfter` / `emptyState` /
`popoverWasActive`): force-close when the list is empty and there is no
auxiliary content, else re-open when the memory flag is set and the list
is non-empty. -/
def visibilityEffect (s : ComboState)
    (hasContentBefore hasContentAfter hasEmptyState : Bool) : ComboState :=
  if s.navigableOptions.length = 0 ∧ hasContentBefore = false ∧
      hasContentAfter = false ∧ hasEmptyState = false then
    forcePopoverActiveFalse s
  else if s.popoverWasActive = true ∧ s.navigableOptions.length ≠ 0 then
    forcePopoverActiveTrue s
  else s

/-- Claim C8: whenever the navigable list is empty and no auxiliary content
(contentBefore, contentAfter, emptyState) is present, the effect forces
the panel closed regardless of prior state; whenever `popoverWasActive`
is set and the list is non-empty, the effect (re-)opens the panel. -/
theorem c8_visibility_effect (s : ComboState) (b1 b2 b3 : Bool) :
    (s.navigableOptions.length = 0 → b1 = false → b2 = false → b3 = false →
      (visibilityEffect s b1 b2 b3).popoverActive = false) ∧
    (s.popoverWasActive = true → s.navigableOptions.length ≠ 0 →
      (visibilityEffect s b1 b2 b3).popoverActive = true) := by
  constructor
  · intro h1 h2 h3 h4
    simp [visibilityEffect, h1, h2, h3, h4, forcePopoverActiveFalse]
  · intro h1 h2
    have hnc : ¬(s.navigableOptions.length = 0 ∧ b1 = false ∧ b2 = false ∧
        b3 = false) := fun hc => h2 hc.1
    simp [visibilityEffect, hnc, h1, h2, forcePopoverActiveTrue]

/-- The transient-empty scenario, step 1: the caller's items just became
`[]` while the memory flag from an earlier open is still set. -/
def sEmptied : ComboState :=
  { heap := demoHeap
    navigableOptions := []
    selectedOption := none
    selectedIndex := -1
    popoverActive := true
    popoverWasActive := true }

/-- The transient-empty scenario, step 2: one item arrived; the panel was
force-closed in step 1 but the memory flag survived. -/
def sRefilled : ComboState :=
  { heap := demoHeap
    navigableOptions := [0]
    selectedOption := none
    selectedIndex := -1
    popoverActive := false
    popoverWasActive := true }

theorem c8_visibility_effect_witness :
    (visibilityEffect sEmptied false false false).popoverActive = false ∧
    (visibilityEffect sRefilled false false false).popoverActive = true := by
  exact ⟨(c8_visibility_effect sEmptied false false false).1 rfl rfl rfl rfl,
    (c8_visibility_effect sRefilled false false false).2 rfl (by decide)⟩

/-- `updateIndexOfSelectedOption(newOptions)`: if the previously highlighted
object is (by reference identity) in `newOptions`, jump to its index there;
else clear the cursor when the old index is out of bounds, else re-select
at the old index. -/
def updateIndexOfSelectedOption (s : ComboState) (newOptions : List Nat) :
    ComboState :=
  match s.selectedOption with
  | some sel =>
    if jsIncludes newOptions sel then
      selectOptionAtIndex s (jsIndexOf newOptions sel)
    else if s.selectedIndex > (newOptions.length : Int) - 1 then
      resetVisuallySelectedOptions s
    else selectOptionAtIndex s s.selectedIndex
  | none =>
    if s.selectedIndex > (newOptions.length : Int) - 1 then
      resetVisuallySelectedOptions s
    else selectOptionAtIndex s s.selectedIndex

/-- Worker for `assignOptionIds`: `options.map((option, optionIndex) =>
({...option, id: `${id}-${optionIndex}`}))`.  Each spread creates a fresh
object, allocated here at reference `fresh + pos`; the copy snapshots the
source object's fields and overrides `id`. -/
def assignOptionIdsAux (h : Nat → EntryData) (refs : List Nat) (idStr : String)
    (fresh pos : Nat) : (Nat → EntryData) × List Nat :=
  match refs with
  | [] => (h, [])
  | r :: rs =>
    let h1 := updHeap h (fresh + pos)
      { h r with idStr := some (idStr ++ "-" ++ toString pos) }
    let rest := assignOptionIdsAux h1 rs idStr fresh (pos + 1)
    (rest.1, (fresh + pos) :: rest.2)

/-- `assignOptionIds(options, id)`. -/
def assignOptionIds (h : Nat → EntryData) (refs : List Nat) (idStr : String)
    (fresh : Nat) : (Nat → EntryData) × List Nat :=
  assignOptionIdsAux h refs idStr fresh 0

/-- The list-rebuild effect followed by the cursor-resync effect:
concatenate `actionsBefore ++ options ++ actionsAfter`, stamp ids on fresh
copies via `assignOptionIds`, store the new navigable list, then run
`updateIndexOfSelectedOption` over it. -/
def rebuildEffect (s : ComboState) (actionsBefore options actionsAfter : List Nat)
    (idStr : String) (fresh : Nat) : ComboState :=
  let newNavigableOptions := actionsBefore ++ options ++ actionsAfter
  let built := assignOptionIds s.heap newNavigableOptions idStr fresh
  updateIndexOfSelectedOption
    { s with heap := built.1, navigableOptions := built.2 } built.2

theorem jsIncludes_eq_false_of_not_mem [DecidableEq α] (l : List α) (v : α)
    (h : v ∉ l) : jsIncludes l v = false := by
  rcases Bool.eq_false_or_eq_true (jsIncludes l v) with hb | hb
  · exact absurd ((jsIncludes_iff_mem l v).mp hb) h
  · exact hb

theorem updHeap_other (h : Nat → EntryData) (k : Nat) (d : EntryData) (n : Nat)
    (hne : n ≠ k) : (updHeap h k d) n = h n := by
  simp [updHeap, hne]

theorem assignOptionIdsAux_heap_lt (refs : List Nat) :
    ∀ (h : Nat → EntryData) (idStr : String) (fresh pos n : Nat),
      n < fresh + pos → (assignOptionIdsAux h refs idStr fresh pos).1 n = h n := by
  induction refs with
  | nil => intro h idStr fresh pos n _; rfl
  | cons a as ih =>
    intro h idStr fresh pos n hn
    rw [show (assignOptionIdsAux h (a :: as) idStr fresh pos).1 =
      (assignOptionIdsAux (updHeap h (fresh + pos)
        { h a with idStr := some (idStr ++ "-" ++ toString pos) })
        as idStr fresh (pos + 1)).1 from rfl]
    rw [ih _ _ _ _ _ (by omega)]
    exact updHeap_other _ _ _ _ (by omega)

theorem assignOptionIdsAux_refs_ge (refs : List Nat) :
    ∀ (h : Nat → EntryData) (idStr : String) (fresh pos r : Nat),
      r ∈ (assignOptionIdsAux h refs idStr fresh pos).2 → fresh + pos ≤ r := by
  induction refs with
  | nil => intro h idStr fresh pos r hr; simp [assignOptionIdsAux] at hr
  | cons a as ih =>
    intro h idStr fresh pos r hr
    rw [show (assignOptionIdsAux h (a :: as) idStr fresh pos).2 =
      (fresh + pos) :: (assignOptionIdsAux (updHeap h (fresh + pos)
        { h a with idStr := some (idStr ++ "-" ++ toString pos) })
        as idStr fresh (pos + 1)).2 from rfl] at hr
    rcases List.mem_cons.mp hr with h1 | h1
    · omega
    · have := ih _ _ _ _ _ h1; omega

theorem assignOptionIdsAux_refs_length (refs : List Nat) :
    ∀ (h : Nat → EntryData) (idStr : String) (fresh pos : Nat),
      (assignOptionIdsAux h refs idStr fresh pos).2.length = refs.length := by
  induction refs with
  | nil => intro h idStr fresh pos; rfl
  | cons a as ih =>
    intro h idStr fresh pos
    rw [show (assignOptionIdsAux h (a :: as) idStr fresh pos).2 =
      (fresh + pos) :: (assignOptionIdsAux (updHeap h (fresh + pos)
        { h a with idStr := some (idStr ++ "-" ++ toString pos) })
        as idStr fresh (pos + 1)).2 from rfl]
    simp [ih]

theorem updateIndex_fallback (s : ComboState) (newOptions : List Nat)
    (h : ∀ sel, s.selectedOption = some sel → jsIncludes newOptions sel = false) :
    updateIndexOfSelectedOption s newOptions =
      if s.selectedIndex > (newOptions.length : Int) - 1 then
        resetVisuallySelectedOptions s
      else selectOptionAtIndex s s.selectedIndex := by
  cases hs : s.selectedOption with
  | none => simp only [updateIndexOfSelectedOption, hs]
  | some sel => simp only [updateIndexOfSelectedOption, hs, h sel hs,
      Bool.false_eq_true, if_false]

theorem updateIndex_fallback_fields (t : ComboState) (newOptions : List Nat)
    (hnav : t.navigableOptions = newOptions)
    (hninc : ∀ sel, t.selectedOption = some sel →
      jsIncludes newOptions sel = false)
    (hlb : -1 ≤ t.selectedIndex)
    (hcoh : t.selectedIndex = -1 → t.selectedOption = none) :
    (t.selectedIndex > (newOptions.length : Int) - 1 →
      (updateIndexOfSelectedOption t newOptions).selectedIndex = -1 ∧
      (updateIndexOfSelectedOption t newOptions).selectedOption = none) ∧
    (t.selectedIndex ≤ (newOptions.length : Int) - 1 →
      (updateIndexOfSelectedOption t newOptions).selectedIndex =
        t.selectedIndex ∧
      (updateIndexOfSelectedOption t newOptions).selectedOption =
        jsGet newOptions t.selectedIndex ∧
      (updateIndexOfSelectedOption t newOptions).navigableOptions =
        newOptions) := by
  rw [updateIndex_fallback t newOptions hninc]
  constructor
  · intro hgt
    rw [if_pos hgt]
    exact ⟨rfl, rfl⟩
  · intro hle
    rw [if_neg (by omega)]
    by_cases h0 : newOptions.length = 0
    · have hidx : t.selectedIndex = -1 := by omega
      have hsel := hcoh hidx
      have hnil : t.navigableOptions.length = 0 := by rw [hnav]; exact h0
      rw [show selectOptionAtIndex t t.selectedIndex = t from by
        simp [selectOptionAtIndex, hnil]]
      refine ⟨rfl, ?_, hnav⟩
      rw [hsel, hidx]
      simp [jsGet]
    · have hnn : t.navigableOptions.length ≠ 0 := by rw [hnav]; exact h0
      rw [selectOptionAtIndex_of_ne t _ hnn]
      exact ⟨rfl, by rw [hnav], hnav⟩

/-- The heap after the first build: 0 and 1 are the caller's item objects
("A" and "B"), 10 and 11 the copies built from them in caller order
`[A, B]`, with the copy of "A" currently highlighted. -/
def rebuiltHeap : Nat → EntryData := fun n =>
  if n = 0 then ⟨some "A", none, false⟩
  else if n = 1 then ⟨some "B", none, false⟩
  else if n = 10 then ⟨some "A", some "combo-0", true⟩
  else if n = 11 then ⟨some "B", some "combo-1", false⟩
  else ⟨none, none, false⟩

/-- State after the first build of `[A, B]` with the cursor on the copy of
"A" at index 0. -/
def sCursorOnA : ComboState :=
  { heap := rebuiltHeap
    navigableOptions := [10, 11]
    selectedOption := some 10
    selectedIndex := 0
    popoverActive := true
    popoverWasActive := true }

/-- Claim C4 is refuted on a rebuild that moves the highlighted item: with
the cursor on the copy of "A" (index 0), rebuilding from the reordered
caller lists `[B, A]` (references `[1, 0]`) puts "A" at position 1 of the
new list, yet the cursor index stays 0 — `assignOptionIds` made fresh
copies, so the identity check can never find the old entry and the cursor
is not re-pointed to the item's new position. -/
theorem c4_counterexample :
    (rebuildEffect sCursorOnA [] [1, 0] [] "combo" 20).selectedIndex = 0 ∧
    ((rebuildEffect sCursorOnA [] [1, 0] [] "combo" 20).heap 21).value =
      some "A" ∧
    jsGet (rebuildEffect sCursorOnA [] [1, 0] [] "combo" 20).navigableOptions 1 =
      some 21 ∧
    (sCursorOnA.heap 10).value = some "A" ∧
    sCursorOnA.selectedOption = some 10 ∧ sCursorOnA.selectedIndex = 0 ∧
    (0 : Int) ≠ 1 := by
  refine ⟨rfl, rfl, rfl, rfl, rfl, rfl, by decide⟩

/-- Claim C4 (amended): `updateIndexOfSelectedOption` re-points the cursor
to the old entry's new position only under reference identity, and
`assignOptionIds` copies every entry into a fresh object, so after a
rebuild the identity branch can never fire: the cursor is cleared to
`(-1, none)` when the old index is out of bounds of the new list, and
otherwise keeps the old index, re-pointed to whatever entry now sits at
that index. -/
theorem c4_rebuild_cursor (s : ComboState)
    (actionsBefore options actionsAfter : List Nat) (idStr : String) (fresh : Nat)
    (hfresh : ∀ sel, s.selectedOption = some sel → sel < fresh)
    (hcoh : s.selectedIndex = -1 → s.selectedOption = none)
    (hlb : -1 ≤ s.selectedIndex) :
    (s.selectedIndex >
        ((actionsBefore ++ options ++ actionsAfter).length : Int) - 1 →
      (rebuildEffect s actionsBefore options actionsAfter idStr fresh).selectedIndex
          = -1 ∧
      (rebuildEffect s actionsBefore options actionsAfter idStr fresh).selectedOption
          = none) ∧
    (s.selectedIndex ≤
        ((actionsBefore ++ options ++ actionsAfter).length : Int) - 1 →
      (rebuildEffect s actionsBefore options actionsAfter idStr fresh).selectedIndex
          = s.selectedIndex ∧
      (rebuildEffect s actionsBefore options actionsAfter idStr fresh).selectedOption
          = jsGet
            (rebuildEffect s actionsBefore options actionsAfter idStr fresh).navigableOptions
            s.selectedIndex) := by
  set R := assignOptionIds s.heap
    (actionsBefore ++ options ++ actionsAfter) idStr fresh with hR
  set t : ComboState := { s with heap := R.1, navigableOptions := R.2 } with ht
  have hre : rebuildEffect s actionsBefore options actionsAfter idStr fresh =
      updateIndexOfSelectedOption t R.2 := rfl
  have hlen : R.2.length = (actionsBefore ++ options ++ actionsAfter).length :=
    assignOptionIdsAux_refs_length _ _ _ _ _
  have hninc : ∀ sel, t.selectedOption = some sel →
      jsIncludes R.2 sel = false := by
    intro sel hs
    apply jsIncludes_eq_false_of_not_mem
    intro hmem
    have h1 := assignOptionIdsAux_refs_ge _ _ _ _ _ _ hmem
    have h2 := hfresh sel hs
    omega
  have hlb' : -1 ≤ t.selectedIndex := hlb
  have hcoh' : t.selectedIndex = -1 → t.selectedOption = none := hcoh
  have key := updateIndex_fallback_fields t R.2 rfl hninc hlb' hcoh'
  have hidx_t : t.selectedIndex = s.selectedIndex := rfl
  rw [hre]
  constructor
  · intro hgt
    have hgt' : t.selectedIndex > (R.2.length : Int) - 1 := by
      rw [hidx_t, hlen]; exact hgt
    exact key.1 hgt'
  · intro hle
    have hle' : t.selectedIndex ≤ (R.2.length : Int) - 1 := by
      rw [hidx_t, hlen]; exact hle
    have hres := key.2 hle'
    refine ⟨hres.1, ?_⟩
    rw [hres.2.1, hres.2.2]

theorem c4_rebuild_cursor_witness :
    (∀ sel, sCursorOnA.selectedOption = some sel → sel < 20) ∧
    (sCursorOnA.selectedIndex = -1 → sCursorOnA.selectedOption = none) ∧
    -1 ≤ sCursorOnA.selectedIndex ∧
    sCursorOnA.selectedIndex ≤
      ((([] : List Nat) ++ [1, 0] ++ []).length : Int) - 1 ∧
    (rebuildEffect sCursorOnA [] [1, 0] [] "combo" 20).selectedIndex =
      sCursorOnA.selectedIndex := by
  refine ⟨?_, ?_, by decide, by decide, ?_⟩
  · intro sel h
    simp [sCursorOnA] at h
    omega
  · intro h
    simp [sCursorOnA] at h
  · exact ((c4_rebuild_cursor sCursorOnA [] [1, 0] [] "combo" 20
      (by intro sel h; simp [sCursorOnA] at h; omega)
      (by intro h; simp [sCursorOnA] at h)
      (by decide)).2 (by decide)).1

/-- The navigation operations of the controller, as named by the spec's
Selection Cursor contract. -/
inductive NavOp where
  | atIndex (i : Int)
  | next
  | prev
  | reset
  deriving DecidableEq, Repr

def applyOp (s : ComboState) : NavOp → ComboState
  | NavOp.atIndex i => selectOptionAtIndex s i
  | NavOp.next => selectNextOption s
  | NavOp.prev => selectPreviousOption s
  | NavOp.reset => resetVisuallySelectedOptions s

def runOps (s : ComboState) : List NavOp → ComboState
  | [] => s
  | o :: os => runOps (applyOp s o) os

/-- Number of navigable entries whose object currently has `active = true`. -/
def activeCount (s : ComboState) : Nat :=
  (s.navigableOptions.filter (fun r => (s.heap r).active)).length

theorem setActiveFlag_active (h : Nat → EntryData) (r : Nat) (b : Bool)
    (n : Nat) :
    ((setActiveFlag h r b) n).active = if n = r then b else (h n).active := by
  by_cases hn : n = r <;> simp [setActiveFlag, updHeap, hn]

theorem setActiveFlag_other (h : Nat → EntryData) (r : Nat) (b : Bool)
    (n : Nat) (hne : n ≠ r) : (setActiveFlag h r b) n = h n := by
  simp [setActiveFlag, updHeap, hne]

theorem setActiveFlag_same (h : Nat → EntryData) (r : Nat) (b : Bool) :
    (setActiveFlag h r b) r = { h r with active := b } := by
  simp [setActiveFlag, updHeap]

theorem visuallyUpdate_active (h : Nat → EntryData) (newO oldO : Option Nat)
    (n : Nat) :
    ((visuallyUpdateSelectedOption h newO oldO) n).active =
      if newO = some n then true
      else if oldO = some n then false
      else (h n).active := by
  cases newO with
  | none =>
    cases oldO with
    | none => simp [visuallyUpdateSelectedOption]
    | some o =>
      rw [show visuallyUpdateSelectedOption h none (some o) =
        setActiveFlag h o false from rfl, setActiveFlag_active]
      by_cases ho : n = o
      · subst ho; simp
      · have ho' : (some o : Option Nat) ≠ some n := by
          intro hc; exact ho (Option.some.inj hc).symm
        simp [ho, ho']
  | some ne =>
    cases oldO with
    | none =>
      rw [show visuallyUpdateSelectedOption h (some ne) none =
        setActiveFlag h ne true from rfl, setActiveFlag_active]
      by_cases hn : n = ne
      · subst hn; simp
      · have hn' : (some ne : Option Nat) ≠ some n := by
          intro hc; exact hn (Option.some.inj hc).symm
        simp [hn, hn']
    | some o =>
      rw [show visuallyUpdateSelectedOption h (some ne) (some o) =
        setActiveFlag (setActiveFlag h o false) ne true from rfl,
        setActiveFlag_active]
      by_cases hn : n = ne
      · subst hn; simp
      · have hn' : (some ne : Option Nat) ≠ some n := by
          intro hc; exact hn (Option.some.inj hc).symm
        rw [if_neg hn, if_neg hn', setActiveFlag_active]
        by_cases ho : n = o
        · subst ho; simp
        · have ho' : (some o : Option Nat) ≠ some n := by
            intro hc; exact ho (Option.some.inj hc).symm
          simp [ho, ho']

theorem clearActiveAll_apply (refs : List Nat) :
    ∀ (h : Nat → EntryData) (n : Nat),
      clearActiveAll h refs n =
        if n ∈ refs then { h n with active := false } else h n := by
  induction refs with
  | nil => intro h n; simp [clearActiveAll]
  | cons a as ih =>
    intro h n
    rw [show clearActiveAll h (a :: as) =
      clearActiveAll (setActiveFlag h a false) as from rfl, ih]
    by_cases hna : n = a
    · subst hna
      by_cases hnas : n ∈ as <;> simp [hnas, setActiveFlag_same]
    · by_cases hnas : n ∈ as <;>
        simp [hnas, hna, setActiveFlag_other _ _ _ _ hna]

theorem selectOptionAtIndex_heap_of_ne (s : ComboState) (i : Int)
    (h : s.navigableOptions.length ≠ 0) :
    (selectOptionAtIndex s i).heap =
      visuallyUpdateSelectedOption s.heap (jsGet s.navigableOptions i)
        s.selectedOption := by
  rw [selectOptionAtIndex_of_ne s i h]

theorem selectOptionAtIndex_selectedOption_of_ne (s : ComboState) (i : Int)
    (h : s.navigableOptions.length ≠ 0) :
    (selectOptionAtIndex s i).selectedOption = jsGet s.navigableOptions i := by
  rw [selectOptionAtIndex_of_ne s i h]

theorem selectPreviousOption_navigable (s : ComboState) :
    (selectPreviousOption s).navigableOptions = s.navigableOptions := by
  by_cases h : s.navigableOptions.length = 0 <;>
    simp [selectPreviousOption, h, selectOptionAtIndex_navigable]

/-- The highlight invariant: any navigable entry whose object is `active`
is the entry the cursor references. -/
def InvC9 (s : ComboState) : Prop :=
  ∀ r ∈ s.navigableOptions, (s.heap r).active = true → s.selectedOption = some r

theorem invC9_selectOptionAtIndex (s : ComboState) (i : Int)
    (hinv : InvC9 s) : InvC9 (selectOptionAtIndex s i) := by
  by_cases hlen : s.navigableOptions.length = 0
  · intro r hr hact
    rw [show selectOptionAtIndex s i = s from by
      simp [selectOptionAtIndex, hlen]] at hr hact ⊢
    exact hinv r hr hact
  · intro r hr hact
    rw [selectOptionAtIndex_navigable] at hr
    rw [selectOptionAtIndex_heap_of_ne s i hlen, visuallyUpdate_active] at hact
    rw [selectOptionAtIndex_selectedOption_of_ne s i hlen]
    by_cases h1 : jsGet s.navigableOptions i = some r
    · exact h1
    · rw [if_neg h1] at hact
      by_cases h2 : s.selectedOption = some r
      · rw [if_pos h2] at hact
        exact absurd hact (by simp)
      · rw [if_neg h2] at hact
        exact absurd (hinv r hr hact) h2

theorem invC9_reset (s : ComboState) :
    InvC9 (resetVisuallySelectedOptions s) := by
  intro r hr hact
  rw [show (resetVisuallySelectedOptions s).heap =
    clearActiveAll s.heap s.navigableOptions from rfl,
    clearActiveAll_apply] at hact
  rw [show (resetVisuallySelectedOptions s).navigableOptions =
    s.navigableOptions from rfl] at hr
  rw [if_pos hr] at hact
  simp at hact

theorem invC9_applyOp (s : ComboState) (o : NavOp) (hinv : InvC9 s) :
    InvC9 (applyOp s o) := by
  cases o with
  | atIndex i => exact invC9_selectOptionAtIndex s i hinv
  | next =>
    by_cases hlen : s.navigableOptions.length = 0
    · intro r hr hact
      rw [show applyOp s NavOp.next = s from by
        simp [applyOp, selectNextOption, hlen]] at hr hact ⊢
      exact hinv r hr hact
    · rw [show applyOp s NavOp.next = selectOptionAtIndex s
        (if s.selectedIndex + 1 ≥ (s.navigableOptions.length : Int) then 0
         else s.selectedIndex + 1) from by
        simp [applyOp, selectNextOption, hlen]]
      exact invC9_selectOptionAtIndex s _ hinv
  | prev =>
    by_cases hlen : s.navigableOptions.length = 0
    · intro r hr hact
      rw [show applyOp s NavOp.prev = s from by
        simp [applyOp, selectPreviousOption, hlen]] at hr hact ⊢
      exact hinv r hr hact
    · rw [show applyOp s NavOp.prev = selectOptionAtIndex s
        (if s.selectedIndex ≤ 0 then (s.navigableOptions.length : Int) - 1
         else s.selectedIndex - 1) from by
        simp [applyOp, selectPreviousOption, hlen]]
      exact invC9_selectOptionAtIndex s _ hinv
  | reset => exact invC9_reset s

theorem invC9_runOps (ops : List NavOp) :
    ∀ s : ComboState, InvC9 s → InvC9 (runOps s ops) := by
  induction ops with
  | nil => intro s hinv; exact hinv
  | cons o os ih =>
    intro s hinv
    exact ih (applyOp s o) (invC9_applyOp s o hinv)

theorem applyOp_navigable (s : ComboState) (o : NavOp) :
    (applyOp s o).navigableOptions = s.navigableOptions := by
  cases o with
  | atIndex i => exact selectOptionAtIndex_navigable s i
  | next => exact selectNextOption_navigable s
  | prev => exact selectPreviousOption_navigable s
  | reset => rfl

theorem runOps_navigable (ops : List NavOp) :
    ∀ s : ComboState, (runOps s ops).navigableOptions = s.navigableOptions := by
  induction ops with
  | nil => intro s; rfl
  | cons o os ih =>
    intro s
    rw [show runOps s (o :: os) = runOps (applyOp s o) os from rfl,
      ih (applyOp s o), applyOp_navigable]

theorem filter_length_le_one {p : Nat → Bool} (l : List Nat) (hnd : l.Nodup)
    (c : Nat) (hp : ∀ r ∈ l, p r = true → r = c) :
    (l.filter p).length ≤ 1 := by
  induction l with
  | nil => simp
  | cons a as ih =>
    rw [List.filter_cons]
    by_cases hpa : p a = true
    · rw [if_pos hpa]
      have ha : a = c := hp a (List.mem_cons_self a as) hpa
      have hnil : as.filter p = [] := by
        apply List.filter_eq_nil_iff.mpr
        intro b hb hpb
        have hb' : b = c := hp b (List.mem_cons_of_mem a hb) hpb
        have hba : b = a := by rw [hb', ha]
        exact absurd (hba ▸ hb) (List.nodup_cons.mp hnd).1
      rw [hnil]
      simp
    · rw [if_neg hpa]
      exact ih (List.nodup_cons.mp hnd).2
        (fun r hr hpr => hp r (List.mem_cons_of_mem a hr) hpr)

theorem invC9_activeCount (s : ComboState) (hnd : s.navigableOptions.Nodup)
    (hinv : InvC9 s) : activeCount s ≤ 1 := by
  cases hsel : s.selectedOption with
  | none =>
    have hnil : s.navigableOptions.filter (fun r => (s.heap r).active) = [] := by
      apply List.filter_eq_nil_iff.mpr
      intro r hr hact
      have h := hinv r hr hact
      rw [hsel] at h
      exact Option.noConfusion h
    rw [activeCount, hnil]
    simp
  | some c =>
    apply filter_length_le_one _ hnd c
    intro r hr hact
    have h := hinv r hr hact
    rw [hsel] at h
    exact (Option.some.inj h).symm

/-- Claim C9: starting from distinct navigable entries none of which is
highlighted, any sequence of navigation operations (`selectOptionAtIndex`,
`selectNextOption`, `selectPreviousOption`,
`resetVisuallySelectedOptions`) leaves at most one navigable entry with
`active = true`. -/
theorem c9_at_most_one_active (ops : List NavOp) (s : ComboState)
    (hnd : s.navigableOptions.Nodup)
    (hact : ∀ r ∈ s.navigableOptions, (s.heap r).active = false) :
    activeCount (runOps s ops) ≤ 1 := by
  have hinv : InvC9 s := by
    intro r hr ha
    rw [hact r hr] at ha
    exact absurd ha (by simp)
  have hnd' : (runOps s ops).navigableOptions.Nodup := by
    rw [runOps_navigable]; exact hnd
  exact invC9_activeCount _ hnd' (invC9_runOps ops s hinv)

theorem c9_at_most_one_active_witness :
    s1.navigableOptions.Nodup ∧
    (∀ r ∈ s1.navigableOptions, (s1.heap r).active = false) ∧
    activeCount (runOps s1 [NavOp.next, NavOp.next, NavOp.prev]) ≤ 1 := by
  refine ⟨by decide, by decide, ?_⟩
  exact c9_at_most_one_active [NavOp.next, NavOp.next, NavOp.prev] s1
    (by decide) (by decide)

theorem jsGet_mem (l : List Nat) (i : Int) (x : Nat) (h : jsGet l i = some x) :
    x ∈ l := by
  rw [jsGet] at h
  by_cases h0 : 0 ≤ i
  · rw [if_pos h0] at h
    exact List.get?_mem h
  · rw [if_neg h0] at h
    exact Option.noConfusion h

theorem visuallyUpdate_apply_other (h : Nat → EntryData)
    (newO oldO : Option Nat) (r : Nat)
    (hn : ∀ x, newO = some x → x ≠ r) (ho : ∀ x, oldO = some x → x ≠ r) :
    (visuallyUpdateSelectedOption h newO oldO) r = h r := by
  cases newO with
  | none =>
    cases oldO with
    | none => rfl
    | some o =>
      exact setActiveFlag_other _ _ _ _ (Ne.symm (ho o rfl))
  | some ne =>
    cases oldO with
    | none =>
      exact setActiveFlag_other _ _ _ _ (Ne.symm (hn ne rfl))
    | some o =>
      rw [show visuallyUpdateSelectedOption h (some ne) (some o) =
        setActiveFlag (setActiveFlag h o false) ne true from rfl]
      rw [setActiveFlag_other _ _ _ _ (Ne.symm (hn ne rfl))]
      exact setActiveFlag_other _ _ _ _ (Ne.symm (ho o rfl))

/-- A reference the core nav operations may never write to: it is not a
navigable entry and is not the currently highlighted object. -/
def UntouchedRef (s : ComboState) (r : Nat) : Prop :=
  r ∉ s.navigableOptions ∧ ∀ sel, s.selectedOption = some sel → sel ≠ r

theorem untouched_selectOptionAtIndex (s : ComboState) (i : Int) (r : Nat)
    (hu : UntouchedRef s r) :
    (selectOptionAtIndex s i).heap r = s.heap r ∧
    UntouchedRef (selectOptionAtIndex s i) r := by
  by_cases hlen : s.navigableOptions.length = 0
  · rw [show selectOptionAtIndex s i = s from by simp [selectOptionAtIndex, hlen]]
    exact ⟨rfl, hu⟩
  · constructor
    · rw [selectOptionAtIndex_heap_of_ne s i hlen]
      apply visuallyUpdate_apply_other
      · intro x hx hxr
        exact hu.1 (hxr ▸ jsGet_mem _ _ _ hx)
      · intro x hx hxr
        exact hu.2 x hx hxr
    · constructor
      · rw [selectOptionAtIndex_navigable]
        exact hu.1
      · rw [selectOptionAtIndex_selectedOption_of_ne s i hlen]
        intro sel hsel hselr
        exact hu.1 (hselr ▸ jsGet_mem _ _ _ hsel)

theorem untouched_reset (s : ComboState) (r : Nat) (hu : UntouchedRef s r) :
    (resetVisuallySelectedOptions s).heap r = s.heap r ∧
    UntouchedRef (resetVisuallySelectedOptions s) r := by
  refine ⟨?_, hu.1, ?_⟩
  · rw [show (resetVisuallySelectedOptions s).heap =
      clearActiveAll s.heap s.navigableOptions from rfl,
      clearActiveAll_apply, if_neg hu.1]
  · intro sel hsel
    exact Option.noConfusion hsel

theorem untouched_applyOp (s : ComboState) (o : NavOp) (r : Nat)
    (hu : UntouchedRef s r) :
    (applyOp s o).heap r = s.heap r ∧ UntouchedRef (applyOp s o) r := by
  cases o with
  | atIndex i => exact untouched_selectOptionAtIndex s i r hu
  | next =>
    by_cases hlen : s.navigableOptions.length = 0
    · rw [show applyOp s NavOp.next = s from by
        simp [applyOp, selectNextOption, hlen]]
      exact ⟨rfl, hu⟩
    · rw [show applyOp s NavOp.next = selectOptionAtIndex s
        (if s.selectedIndex + 1 ≥ (s.navigableOptions.length : Int) then 0
         else s.selectedIndex + 1) from by
        simp [applyOp, selectNextOption, hlen]]
      exact untouched_selectOptionAtIndex s _ r hu
  | prev =>
    by_cases hlen : s.navigableOptions.length = 0
    · rw [show applyOp s NavOp.prev = s from by
        simp [applyOp, selectPreviousOption, hlen]]
      exact ⟨rfl, hu⟩
    · rw [show applyOp s NavOp.prev = selectOptionAtIndex s
        (if s.selectedIndex ≤ 0 then (s.navigableOptions.length : Int) - 1
         else s.selectedIndex - 1) from by
        simp [applyOp, selectPreviousOption, hlen]]
      exact untouched_selectOptionAtIndex s _ r hu
  | reset => exact untouched_reset s r hu

theorem untouched_runOps (ops : List NavOp) :
    ∀ (s : ComboState) (r : Nat), UntouchedRef s r →
      (runOps s ops).heap r = s.heap r ∧ UntouchedRef (runOps s ops) r := by
  induction ops with
  | nil => intro s r hu; exact ⟨rfl, hu⟩
  | cons o os ih =>
    intro s r hu
    have h1 := untouched_applyOp s o r hu
    have h2 := ih (applyOp s o) r h1.2
    exact ⟨h2.1.trans h1.1, h2.2⟩

theorem untouched_updateIndex (t : ComboState) (newOptions : List Nat)
    (r : Nat) (hu : UntouchedRef t r) :
    (updateIndexOfSelectedOption t newOptions).heap r = t.heap r ∧
    UntouchedRef (updateIndexOfSelectedOption t newOptions) r := by
  cases hs : t.selectedOption with
  | some sel =>
    simp only [updateIndexOfSelectedOption, hs]
    by_cases h1 : jsIncludes newOptions sel = true
    · rw [if_pos h1]
      exact untouched_selectOptionAtIndex t _ r hu
    · rw [if_neg h1]
      by_cases h2 : t.selectedIndex > (newOptions.length : Int) - 1
      · rw [if_pos h2]
        exact untouched_reset t r hu
      · rw [if_neg h2]
        exact untouched_selectOptionAtIndex t _ r hu
  | none =>
    simp only [updateIndexOfSelectedOption, hs]
    by_cases h2 : t.selectedIndex > (newOptions.length : Int) - 1
    · rw [if_pos h2]
      exact untouched_reset t r hu
    · rw [if_neg h2]
      exact untouched_selectOptionAtIndex t _ r hu

/-- Claim C10: navigation's `active`-flag writes land only on the fresh
copies `assignOptionIds` made when the navigable list was rebuilt, so an
option/action object the caller passed in (any reference below the fresh
allocation point that is not the stale highlight) is never mutated by the
rebuild or by any subsequent sequence of navigation operations. -/
theorem c10_caller_objects_never_mutated (ops : List NavOp) (s : ComboState)
    (actionsBefore options actionsAfter : List Nat) (idStr : String)
    (fresh : Nat) (r : Nat)
    (_hcaller : r ∈ actionsBefore ++ options ++ actionsAfter)
    (hfresh : r < fresh)
    (hsel : ∀ sel, s.selectedOption = some sel → sel ≠ r) :
    (runOps (rebuildEffect s actionsBefore options actionsAfter idStr fresh)
      ops).heap r = s.heap r := by
  set R := assignOptionIds s.heap
    (actionsBefore ++ options ++ actionsAfter) idStr fresh with hR
  set t : ComboState := { s with heap := R.1, navigableOptions := R.2 } with ht
  have hre : rebuildEffect s actionsBefore options actionsAfter idStr fresh =
      updateIndexOfSelectedOption t R.2 := rfl
  have hnotin : r ∉ R.2 := by
    intro hmem
    have := assignOptionIdsAux_refs_ge _ _ _ _ _ _ hmem
    omega
  have hu : UntouchedRef t r := ⟨hnotin, fun sel hs => hsel sel hs⟩
  have hupd := untouched_updateIndex t R.2 r hu
  have hrun := untouched_runOps ops _ r hupd.2
  rw [hre, hrun.1, hupd.1]
  exact assignOptionIdsAux_heap_lt _ _ _ _ _ _ (by omega)

theorem c10_caller_objects_never_mutated_witness :
    (0 : Nat) ∈ [0] ++ [1] ++ ([] : List Nat) ∧ (0 : Nat) < 10 ∧
    (runOps (rebuildEffect s1 [0] [1] [] "combo" 10)
      [NavOp.next, NavOp.prev, NavOp.reset]).heap 0 = s1.heap 0 := by
  refine ⟨by decide, by decide, ?_⟩
  exact c10_caller_objects_never_mutated [NavOp.next, NavOp.prev, NavOp.reset]
    s1 [0] [1] [] "combo" 10 0 (by decide) (by decide)
    (by intro sel h; simp [s1] at h)
